import Mathlib

/-! Verification of the AI-twin / selection-assistant core of the `pineback2`
repository (`backend/core/ai_utils.py`), shallowly embedded in Lean.

Python strings are modelled as `List Char`.  The external generative-model
client (`anthropic.Anthropic`) is modelled as an oracle `Client` mapping a
request (system prompt, model id, max tokens, user content) to either a
returned text (`CallResult.ok`) or a raised exception carried as its message
(`CallResult.err`).  Each embedded operation additionally returns the list of
requests it issued, in order, so that call-count properties can be stated.
The persistent `AITwin` row of a document is modelled as `Option (List Char)`
(its `content_ai` field, `none` when the row does not exist).
-/

namespace Pineback

abbrev Chars := List Char

/-- Whitespace characters removed by Python `str.strip()` (ASCII range). -/
def pyIsSpace (c : Char) : Bool :=
  c = ' ' || c = '\t' || c = '\n' || c = '\r' || c = '\x0b' || c = '\x0c'

/-- Python `str.strip()`: drop leading and trailing whitespace. -/
def pyStrip (s : Chars) : Chars :=
  ((s.dropWhile pyIsSpace).reverse.dropWhile pyIsSpace).reverse

/-- Python `str.lower()` (ASCII letters, as used by the keyword check). -/
def lowerChars (s : Chars) : Chars := s.map Char.toLower

/-- `startsWith pat l` : does `l` begin with `pat`? -/
def startsWith : Chars → Chars → Bool
  | [], _ => true
  | _ :: _, [] => false
  | p :: ps, c :: cs => p = c && startsWith ps cs

/-- Python `pat in hay` (substring containment). -/
def containsSub (hay pat : Chars) : Bool :=
  match hay with
  | [] => startsWith pat []
  | c :: rest => startsWith pat (c :: rest) || containsSub rest pat

/-- Leftmost occurrence of `pat` in a list: returns the part before the
occurrence and the part after it, or `none` when `pat` does not occur.
This is the leftmost-match discipline of Python's `re` engine applied to a
literal pattern. -/
def splitOnFirst (pat : Chars) : Chars → Option (Chars × Chars)
  | [] => if startsWith pat [] then some ([], []) else none
  | c :: rest =>
    if startsWith pat (c :: rest) then some ([], (c :: rest).drop pat.length)
    else
      match splitOnFirst pat rest with
      | some (b, a) => some (c :: b, a)
      | none => none

/-! Tag stripping: `re.sub` with the tag pattern, the HTML strip used on every input.
It is realised as a two-state scanner: outside a candidate tag, or inside one
(after a `<`), buffering the characters seen since the `<` so they can be
restored when no `>` ever arrives (the regex then has no match there). -/

/-- State scanner for `re.sub(r'<[^>]+>', '', s)`.  `none` = outside any
candidate tag; `some mids` = a `<` has been read and `mids` (reversed) are the
non-`>` characters read since.  `<>` is not a match (the regex needs at least
one character between the brackets) and an unclosed `<...` is kept verbatim. -/
def stripAux : Option Chars → Chars → Chars
  | none, [] => []
  | none, c :: rest =>
    if c = '<' then stripAux (some []) rest else c :: stripAux none rest
  | some mids, [] => '<' :: mids.reverse
  | some mids, c :: rest =>
    if c = '>' then
      match mids with
      | [] => '<' :: '>' :: stripAux none rest
      | _ :: _ => stripAux none rest
    else stripAux (some (c :: mids)) rest

/-- `re.sub(r'<[^>]+>', '', s)`, applied to document content, selected text
and full context before any prompt is built. -/
def stripTags (s : Chars) : Chars := stripAux none s

/-! Sentinel-delimiter protocol of the selection assistant. -/

def openTagChars : Chars := "<suggested_text>".data

def closeTagChars : Chars := "</suggested_text>".data

/-- `re.search(r'<suggested_text>(.*?)</suggested_text>', s, re.DOTALL)`,
returning `group(1)` of the match: the payload between the first opening tag
(that is followed by a closing tag) and the first closing tag after it. -/
def searchSuggested (s : Chars) : Option Chars :=
  match splitOnFirst openTagChars s with
  | none => none
  | some (_, afterOpen) =>
    match splitOnFirst closeTagChars afterOpen with
    | none => none
    | some (payload, _) => some payload

/-- Fuelled worker for `re.sub(r'<suggested_text>.*?</suggested_text>', '', s)`:
remove the leftmost delimited span and continue after it.  Each removal
consumes at least the two tags, so `s.length` is always enough fuel. -/
def subFuel : Nat → Chars → Chars
  | 0, s => s
  | fuel + 1, s =>
    match splitOnFirst openTagChars s with
    | none => s
    | some (before, afterOpen) =>
      match splitOnFirst closeTagChars afterOpen with
      | none => s
      | some (_, afterClose) => before ++ subFuel fuel afterClose

/-- `re.sub(r'<suggested_text>.*?</suggested_text>', '', s, flags=re.DOTALL)`. -/
def subSuggested (s : Chars) : Chars := subFuel s.length s

/-! External-call interface. -/

/-- One request to `client.messages.create`. -/
structure Req where
  system : Option Chars
  model : Chars
  max_tokens : Nat
  content : Chars
deriving DecidableEq, Repr

/-- Outcome of an external call: the returned text, or a raised exception
carried as its message (`str(e)`). -/
inductive CallResult where
  | ok (text : Chars)
  | err (msg : Chars)
deriving DecidableEq, Repr

/-- The external generative-model service: an oracle from requests to
outcomes.  `client is None` is modelled as `Option Client` being `none`. -/
structure Client where
  respond : Req → CallResult

def modelName : Chars := "claude-sonnet-4-20250514".data

/-! Twin generator: `generate_twin_content` and `get_twin_content`. -/

/-- A `Document` as the twin generator reads it: its `title` and `content`. -/
structure Doc where
  title : Chars
  content : Chars
deriving DecidableEq, Repr

def twinConfigWarning : Chars :=
  "## ⚠️ API Key Not Configured\n\nPlease set the `ANTHROPIC_API_KEY` environment variable to enable AI features.".data

/-- The error markdown block returned when the external call raises `e`. -/
def twinErrorMsg (e : Chars) : Chars :=
  "## ⚠️ AI Generation Error\n\nFailed to generate AI Twin:\n\n```\n".data ++ e
    ++ "\n```\n\nPlease check your API key and try again.".data

/-- The twin-generation prompt, with the document title and the tag-stripped
content interpolated. -/
def twinPrompt (title clean_content : Chars) : Chars :=
  "You are a Senior Software Architect and Technical Writer.\n\nTransform the following human-written project notes into a high-density, \nstructured Markdown document optimized for an LLM to understand a codebase or project.\n\nHUMAN NOTES:\n---\nTitle: ".data
    ++ title
    ++ "\n\nContent:\n".data
    ++ clean_content
    ++ "\n---\n\nOUTPUT REQUIREMENTS:\n1. Use clear hierarchical headers:\n   - ## Technical Context (what this is about)\n   - ## Core Requirements (extracted as bullet points)\n   - ## Data Structures (if any entities/models are mentioned)\n   - ## Logic Flow (pseudocode if any processes are described)\n   - ## Dependencies & Integrations (external systems, APIs)\n   - ## Open Questions (uncertainties or TODOs)\n\n2. Extract ALL technical requirements into concise bullet points\n3. If any logic or workflow is mentioned, represent it in pseudocode\n4. Identify and list any data entities, their attributes, and relationships\n5. Keep it CONCISE - no conversational filler, no repetition\n6. Use code blocks for any technical specifications\n7. If the content is too brief, note what information is missing\n\nIMPORTANT: Output ONLY the structured markdown. No preamble or explanation.".data

/-- The single request issued by `generate_twin_content`. -/
def twinReq (document : Doc) : Req :=
  { system := none, model := modelName, max_tokens := 2048,
    content := twinPrompt document.title (stripTags document.content) }

/-- `generate_twin_content(document)`.  Takes the client (or `none` when the
API key is missing), the document, and the document's current stored twin;
returns the string returned to the caller, the stored twin afterwards, and
the requests issued. -/
def generate_twin_content (client : Option Client) (document : Doc)
    (twin : Option Chars) : Chars × Option Chars × List Req :=
  match client with
  | none => (twinConfigWarning, twin, [])
  | some cl =>
    match cl.respond (twinReq document) with
    | CallResult.ok ai_content => (ai_content, some ai_content, [twinReq document])
    | CallResult.err e => (twinErrorMsg e, twin, [twinReq document])

/-- `get_twin_content(document)`: the stored `content_ai` when the `AITwin`
row exists, `None` (here `none`) when it does not. -/
def get_twin_content (twin : Option Chars) : Option Chars := twin

/-! Selection assistant: `ai_assist_text`. -/

/-- The fixed system prompt of the primary assistant call. -/
def systemPromptChars : Chars :=
  "You are an intelligent writing assistant embedded in a document editor.\nThe user has selected some text and is asking you to help with it.\n\nYour capabilities:\n1. Answer questions about the selected text\n2. Suggest improvements, rewrites, or edits\n3. Expand on ideas\n4. Fix grammar, spelling, or style issues\n5. Translate or change tone\n6. Summarize or simplify\n\nCRITICAL RESPONSE FORMAT:\n- If the user asks a QUESTION about the text (like \"what does this mean?\"), just provide a helpful answer.\n- If the user wants you to MODIFY, IMPROVE, FIX, REWRITE, EXPAND, SHORTEN, or CHANGE the text in ANY way, you MUST:\n  1. First give a brief explanation (1-2 sentences max) of what you changed\n  2. Then provide the COMPLETE replacement text wrapped EXACTLY like this:\n     <suggested_text>your replacement text here</suggested_text>\n\nIMPORTANT: \n- The <suggested_text> tags are REQUIRED for any modification request\n- Put the ENTIRE replacement text inside the tags, not just the changed parts\n- Do not include any formatting or extra text inside the tags, just the plain replacement text\n- Keep explanations brief - the user wants to see the result quickly".data

/-- The user message of the primary call: selected text, then (when the
cleaned context is non-empty) the full-context block, then the user request. -/
def mkUserMessage (clean_selected clean_context user_prompt : Chars) : Chars :=
  "SELECTED TEXT:\n---\n".data ++ clean_selected ++ "\n---\n\n".data
    ++ (if clean_context ≠ [] then
          "FULL DOCUMENT CONTEXT:\n---\n".data ++ clean_context ++ "\n---\n\n".data
        else [])
    ++ "USER REQUEST: ".data ++ user_prompt

/-- The prompt of the fallback extraction call, with the cleaned selected
text and the (current) response text interpolated. -/
def mkExtractionPrompt (clean_selected response_text : Chars) : Chars :=
  "Based on this AI response about modifying text, extract ONLY the suggested replacement text.\n\nORIGINAL TEXT: ".data
    ++ clean_selected
    ++ "\n\nAI RESPONSE: ".data
    ++ response_text
    ++ "\n\nReturn ONLY the replacement text that should replace the original. No explanation, no quotes, just the raw replacement text. If there's no clear replacement suggested, return exactly: NO_REPLACEMENT".data

def assistConfigResponse : Chars :=
  "API key not configured. Please set the ANTHROPIC_API_KEY environment variable.".data

/-- The fixed modification-keyword list of `ai_assist_text`. -/
def modification_keywords : List Chars :=
  [ "improve".data, "fix".data, "rewrite".data, "change".data, "make".data,
    "shorten".data, "expand".data, "grammar".data, "spelling".data,
    "professional".data, "clearer".data, "concise".data, "better".data,
    "translate".data, "simplify".data, "formal".data, "casual".data,
    "correct".data, "edit".data ]

/-- `any(kw in user_prompt.lower() for kw in modification_keywords)`. -/
def is_modification_request (user_prompt : Chars) : Bool :=
  modification_keywords.any (fun kw => containsSub (lowerChars user_prompt) kw)

/-- The primary request of `ai_assist_text`:
`clean_selected = re.sub(tags, '', selected_text)`, and
`clean_context = re.sub(tags, '', full_context) if full_context else ""`. -/
def assistPrimaryReq (selected_text user_prompt full_context : Chars) : Req :=
  { system := some systemPromptChars, model := modelName, max_tokens := 1024,
    content := mkUserMessage (stripTags selected_text)
      (if full_context = [] then [] else stripTags full_context) user_prompt }

/-- The fallback extraction request. -/
def assistExtractionReq (clean_selected response_text : Chars) : Req :=
  { system := none, model := modelName, max_tokens := 512,
    content := mkExtractionPrompt clean_selected response_text }

/-- `suggested_text` right after primary extraction: `match.group(1).strip()`
when the tagged span is present, else `None`. -/
def primarySuggested (raw : Chars) : Option Chars :=
  (searchSuggested raw).map pyStrip

/-- `response_text` after primary extraction: when a tagged span is present
the spans are substituted away and the result stripped, otherwise the raw
response is kept as is. -/
def displayedResponse (raw : Chars) : Chars :=
  match searchSuggested raw with
  | some _ => pyStrip (subSuggested raw)
  | none => raw

/-- Python falsiness of the `suggested_text` variable (`None` and the empty
string are both falsy). -/
def pyFalsyOpt : Option Chars → Bool
  | none => true
  | some s => s.isEmpty

/-- The `{response, suggested_text}` dictionary returned by `ai_assist_text`. -/
structure AssistResult where
  response : Chars
  suggested_text : Option Chars
deriving DecidableEq, Repr

/-- `ai_assist_text(selected_text, user_prompt, full_context)`, returning the
result dictionary together with the list of external requests issued.
The `try` block covers both calls: an exception from either is caught and
turned into `{'response': f"Error: {str(e)}", 'suggested_text': None}`. -/
def ai_assist_text (client : Option Client)
    (selected_text user_prompt full_context : Chars) : AssistResult × List Req :=
  match client with
  | none => ({ response := assistConfigResponse, suggested_text := none }, [])
  | some cl =>
    let req1 := assistPrimaryReq selected_text user_prompt full_context
    match cl.respond req1 with
    | CallResult.err e =>
      ({ response := "Error: ".data ++ e, suggested_text := none }, [req1])
    | CallResult.ok raw =>
      let suggested0 := primarySuggested raw
      let response1 := displayedResponse raw
      if pyFalsyOpt suggested0 && is_modification_request user_prompt then
        let req2 := assistExtractionReq (stripTags selected_text) response1
        match cl.respond req2 with
        | CallResult.err e =>
          ({ response := "Error: ".data ++ e, suggested_text := none }, [req1, req2])
        | CallResult.ok t =>
          let extracted := pyStrip t
          ({ response := response1,
             suggested_text :=
               if extracted ≠ [] ∧ extracted ≠ "NO_REPLACEMENT".data ∧ extracted.length > 3
               then some extracted else suggested0 },
           [req1, req2])
      else
        ({ response := response1, suggested_text := suggested0 }, [req1])

/-- A segment with no `<` character: no tag span can start inside it, so the
sanitizer must keep it verbatim. -/
def isPlainSeg (t : Chars) : Bool := t.all (fun ch => ch != '<')

/-! Helper lemmas about the string scanners. -/

theorem startsWith_self_append (p r : Chars) : startsWith p (p ++ r) = true := by
  induction p with
  | nil => rfl
  | cons c cs ih => simp [startsWith, ih]

theorem startsWith_iff_exists (p : Chars) :
    ∀ l, startsWith p l = true ↔ ∃ t, l = p ++ t := by
  induction p with
  | nil => intro l; simp only [startsWith, true_iff]; exact ⟨l, rfl⟩
  | cons c cs ih =>
    intro l
    cases l with
    | nil => simp [startsWith]
    | cons d ds =>
      constructor
      · intro h
        simp only [startsWith, Bool.and_eq_true, decide_eq_true_eq] at h
        obtain ⟨rfl, h2⟩ := h
        obtain ⟨t, rfl⟩ := (ih ds).1 h2
        exact ⟨t, rfl⟩
      · rintro ⟨t, ht⟩
        injection ht with h1 h2
        subst h1; subst h2
        simp [startsWith, startsWith_self_append]

theorem containsSub_iff (pat : Chars) :
    ∀ hay, containsSub hay pat = true ↔ ∃ a b, hay = a ++ pat ++ b := by
  intro hay
  induction hay with
  | nil =>
    rw [containsSub, startsWith_iff_exists]
    constructor
    · rintro ⟨t, ht⟩
      have h1 : pat = [] := by
        cases pat with
        | nil => rfl
        | cons x xs => simp at ht
      subst h1
      exact ⟨[], t, by simpa using ht⟩
    · rintro ⟨a, b, hab⟩
      cases a with
      | nil => exact ⟨b, by simpa using hab⟩
      | cons x a' => simp at hab
  | cons c rest ih =>
    rw [containsSub]
    simp only [Bool.or_eq_true, startsWith_iff_exists, ih]
    constructor
    · rintro (⟨t, ht⟩ | ⟨a, b, hab⟩)
      · exact ⟨[], t, by simpa using ht⟩
      · exact ⟨c :: a, b, by simp [hab]⟩
    · rintro ⟨a, b, hab⟩
      cases a with
      | nil => exact Or.inl ⟨b, by simpa using hab⟩
      | cons x a' =>
        injection hab with h1 h2
        exact Or.inr ⟨a', b, h2⟩

theorem splitOnFirst_append (pt r : Chars) :
    ∀ e : Chars, '<' ∉ e →
      splitOnFirst ('<' :: pt) (e ++ (('<' :: pt) ++ r)) = some (e, r) := by
  intro e
  induction e with
  | nil =>
    intro _
    show splitOnFirst ('<' :: pt) ('<' :: (pt ++ r)) = some ([], r)
    rw [splitOnFirst]
    rw [show startsWith ('<' :: pt) ('<' :: (pt ++ r)) = true from
      startsWith_self_append ('<' :: pt) r]
    simp
  | cons c e' ih =>
    intro he
    have hc : c ≠ '<' := fun h => he (by simp [h])
    have he' : '<' ∉ e' := fun h => he (List.mem_cons_of_mem _ h)
    show splitOnFirst ('<' :: pt) (c :: (e' ++ (('<' :: pt) ++ r))) = some (c :: e', r)
    rw [splitOnFirst]
    have hs : startsWith ('<' :: pt) (c :: (e' ++ (('<' :: pt) ++ r))) = false := by
      simp only [startsWith, Bool.and_eq_false_iff]
      left
      simp [Ne.symm hc]
    rw [hs]
    have ih2 : splitOnFirst ('<' :: pt) (e' ++ '<' :: (pt ++ r)) = some (e', r) := ih he'
    simp [ih2]

theorem openTagChars_eq : openTagChars = '<' :: "suggested_text>".data := by decide

theorem closeTagChars_eq : closeTagChars = '<' :: "/suggested_text>".data := by decide

theorem splitOpen_form (e r : Chars) (he : '<' ∉ e) :
    splitOnFirst openTagChars (e ++ (openTagChars ++ r)) = some (e, r) := by
  rw [openTagChars_eq]
  exact splitOnFirst_append ("suggested_text>".data) r e he

theorem splitClose_form (p r : Chars) (hp : '<' ∉ p) :
    splitOnFirst closeTagChars (p ++ (closeTagChars ++ r)) = some (p, r) := by
  rw [closeTagChars_eq]
  exact splitOnFirst_append ("/suggested_text>".data) r p hp

theorem subFuel_nil (n : Nat) : subFuel n [] = [] := by
  have h : splitOnFirst openTagChars [] = none := by decide
  cases n with
  | zero => rfl
  | succ m => simp [subFuel, h]

theorem searchSuggested_form (e p : Chars) (he : '<' ∉ e) (hp : '<' ∉ p) :
    searchSuggested (e ++ openTagChars ++ p ++ closeTagChars) = some p := by
  have h1 : splitOnFirst openTagChars (e ++ openTagChars ++ p ++ closeTagChars)
      = some (e, p ++ closeTagChars) := by
    have h := splitOpen_form e (p ++ closeTagChars) he
    simpa [List.append_assoc] using h
  have h2 : splitOnFirst closeTagChars (p ++ closeTagChars) = some (p, []) := by
    have h := splitClose_form p [] hp
    simpa using h
  simp only [searchSuggested, h1, h2]

theorem subSuggested_form (e p : Chars) (he : '<' ∉ e) (hp : '<' ∉ p) :
    subSuggested (e ++ openTagChars ++ p ++ closeTagChars) = e := by
  have h1 : splitOnFirst openTagChars (e ++ openTagChars ++ p ++ closeTagChars)
      = some (e, p ++ closeTagChars) := by
    have h := splitOpen_form e (p ++ closeTagChars) he
    simpa [List.append_assoc] using h
  have h2 : splitOnFirst closeTagChars (p ++ closeTagChars) = some (p, []) := by
    have h := splitClose_form p [] hp
    simpa using h
  have hlen : ∃ m, (e ++ openTagChars ++ p ++ closeTagChars).length = m + 1 := by
    have hc : closeTagChars.length = 17 := by decide
    refine ⟨(e ++ openTagChars ++ p).length + 16, ?_⟩
    simp [List.length_append, hc]
    omega
  obtain ⟨m, hm⟩ := hlen
  rw [subSuggested, hm]
  simp only [subFuel, h1, h2, subFuel_nil, List.append_nil]

theorem stripAux_plain_append (r : Chars) :
    ∀ t : Chars, (∀ ch ∈ t, ch ≠ '<') →
      stripAux none (t ++ r) = t ++ stripAux none r := by
  intro t
  induction t with
  | nil => intro _; rfl
  | cons c t' ih =>
    intro h
    have hc : c ≠ '<' := h c (List.mem_cons_self c t')
    show stripAux none (c :: (t' ++ r)) = c :: (t' ++ stripAux none r)
    simp only [stripAux]
    rw [if_neg hc]
    rw [ih (fun ch hch => h ch (List.mem_cons_of_mem _ hch))]

theorem stripAux_close (r : Chars) :
    ∀ mids acc : Chars, (∀ ch ∈ mids, ch ≠ '>') → (acc ≠ [] ∨ mids ≠ []) →
      stripAux (some acc) (mids ++ ('>' :: r)) = stripAux none r := by
  intro mids
  induction mids with
  | nil =>
    intro acc _ hne
    have hacc : acc ≠ [] := by
      rcases hne with h | h
      · exact h
      · exact absurd rfl h
    show stripAux (some acc) ('>' :: r) = stripAux none r
    simp only [stripAux]
    rw [if_pos trivial]
    cases acc with
    | nil => exact absurd rfl hacc
    | cons a as => rfl
  | cons m mids' ih =>
    intro acc h _
    have hm : m ≠ '>' := h m (List.mem_cons_self _ _)
    show stripAux (some acc) (m :: (mids' ++ ('>' :: r))) = stripAux none r
    simp only [stripAux]
    rw [if_neg hm]
    exact ih (m :: acc) (fun ch hch => h ch (List.mem_cons_of_mem _ hch)) (Or.inl (by simp))

theorem stripAux_tag_append (mids r : Chars) (hm : mids ≠ [])
    (h : ∀ ch ∈ mids, ch ≠ '>') :
    stripAux none (('<' :: (mids ++ ['>'])) ++ r) = stripAux none r := by
  show stripAux none ('<' :: ((mids ++ ['>']) ++ r)) = stripAux none r
  simp only [stripAux]
  rw [if_pos trivial, List.append_assoc]
  exact stripAux_close r mids [] h (Or.inr hm)

theorem stripTags_join (segs : List Chars) :
    (∀ t ∈ segs, isPlainSeg t = true ∨
      ∃ mids, mids ≠ [] ∧ (∀ ch ∈ mids, ch ≠ '>') ∧ t = '<' :: (mids ++ ['>'])) →
    stripTags segs.flatten = (segs.filter isPlainSeg).flatten := by
  induction segs with
  | nil => intro _; rfl
  | cons t segs' ih =>
    intro h
    have ht := h t (List.mem_cons_self _ _)
    have h' := fun u hu => h u (List.mem_cons_of_mem _ hu)
    rcases ht with hplain | ⟨mids, hm, hgt, rfl⟩
    · have hlt : ∀ ch ∈ t, ch ≠ '<' := by
        intro ch hch
        have := (List.all_eq_true.mp hplain) ch hch
        simpa using this
      show stripAux none (t ++ segs'.flatten) = ((t :: segs').filter isPlainSeg).flatten
      rw [stripAux_plain_append _ t hlt]
      rw [show stripAux none segs'.flatten = stripTags segs'.flatten from rfl]
      rw [ih h']
      simp [List.filter_cons, hplain]
    · show stripAux none (('<' :: (mids ++ ['>'])) ++ segs'.flatten)
        = ((('<' :: (mids ++ ['>'])) :: segs').filter isPlainSeg).flatten
      rw [stripAux_tag_append mids _ hm hgt]
      rw [show stripAux none segs'.flatten = stripTags segs'.flatten from rfl]
      rw [ih h']
      have hnp : isPlainSeg ('<' :: (mids ++ ['>'])) = false := by
        simp [isPlainSeg]
      simp [List.filter_cons, hnp]

/-- Claim C9: sanitization removes every tag span (a `<`, at least one
non-`>` character, then the next `>`) and keeps all characters outside tag
spans unchanged and in order; and the same stripping function is what both
the twin generator (on document content) and the selection assistant (on
selected text and context) feed into their prompts. -/
theorem C9_markup_stripping (segs : List Chars)
    (h : ∀ t ∈ segs, isPlainSeg t = true ∨
      ∃ mids, mids ≠ [] ∧ (∀ ch ∈ mids, ch ≠ '>') ∧ t = '<' :: (mids ++ ['>'])) :
    stripTags segs.flatten = (segs.filter isPlainSeg).flatten ∧
    (∀ d : Doc, (twinReq d).content = twinPrompt d.title (stripTags d.content)) ∧
    (∀ s p c : Chars, c ≠ [] → (assistPrimaryReq s p c).content
        = mkUserMessage (stripTags s) (stripTags c) p) := by
  refine ⟨stripTags_join segs h, fun d => rfl, fun s p c hc => ?_⟩
  simp [assistPrimaryReq, hc]

/-- Witness for C9 at the spec's own example `<b>text</b>` together with
surrounding plain text. -/
theorem C9_markup_stripping_witness :
    stripTags (["ab".data, "<b>".data, "text".data, "</b>".data, "cd".data].flatten)
      = (["ab".data, "<b>".data, "text".data, "</b>".data, "cd".data].filter isPlainSeg).flatten :=
  (C9_markup_stripping _ (by
    intro t ht
    simp only [List.mem_cons, List.not_mem_nil, or_false] at ht
    rcases ht with rfl | rfl | rfl | rfl | rfl
    · exact Or.inl (by decide)
    · exact Or.inr ⟨"b".data, by decide, by decide, by decide⟩
    · exact Or.inl (by decide)
    · exact Or.inr ⟨"/b".data, by decide, by decide, by decide⟩
    · exact Or.inl (by decide))).1


/-- Claim C1 (amended): after a successful primary call returning `raw`, the
fallback extraction request is issued exactly once when the prompt is a
modification request AND the primary suggestion is absent-or-empty (no
delimited span, or a span whose payload trims to the empty string); in every
other case — in particular for any non-modification prompt — only the primary
request is issued. -/
theorem C1_fallback_gating (cl : Client) (s p c raw : Chars)
    (hok : cl.respond (assistPrimaryReq s p c) = CallResult.ok raw) :
    (ai_assist_text (some cl) s p c).2 =
      if pyFalsyOpt (primarySuggested raw) && is_modification_request p then
        [assistPrimaryReq s p c, assistExtractionReq (stripTags s) (displayedResponse raw)]
      else [assistPrimaryReq s p c] := by
  simp only [ai_assist_text]
  rw [hok]
  cases hcond : pyFalsyOpt (primarySuggested raw) && is_modification_request p
  · simp [hcond]
  · cases hresp : cl.respond (assistExtractionReq (stripTags s) (displayedResponse raw)) <;>
      simp [hcond, hresp]

/-- Counterexample to claim C1 as stated: with the modification prompt "fix"
and a primary response that DOES contain a sentinel-delimited span (payload
trims to empty), the fallback call is still issued — two requests in the
trace — so "issued exactly once iff no delimited span and modification" is
false. -/
theorem C1_fallback_gating_cex :
    ¬ ((ai_assist_text (some (Client.mk (fun r =>
          if r.max_tokens = 1024
          then CallResult.ok ("ok <suggested_text> </suggested_text>".data)
          else CallResult.ok ("done!".data))))
        ("t".data) ("fix".data) []).2.length = 2 ↔
      (searchSuggested ("ok <suggested_text> </suggested_text>".data) = none ∧
        is_modification_request ("fix".data) = true)) := by decide

/-- Witness for C1: a modification prompt whose primary response has no
delimited span issues the primary and exactly one fallback request. -/
theorem C1_fallback_gating_witness :
    (Client.mk (fun r => if r.max_tokens = 1024
        then CallResult.ok ("no tags here".data)
        else CallResult.ok ("BETTER".data))).respond
        (assistPrimaryReq ("t".data) ("fix the grammar".data) [])
      = CallResult.ok ("no tags here".data) ∧
    (ai_assist_text (some (Client.mk (fun r => if r.max_tokens = 1024
        then CallResult.ok ("no tags here".data)
        else CallResult.ok ("BETTER".data))))
      ("t".data) ("fix the grammar".data) []).2 =
      if pyFalsyOpt (primarySuggested ("no tags here".data))
          && is_modification_request ("fix the grammar".data) then
        [assistPrimaryReq ("t".data) ("fix the grammar".data) [],
         assistExtractionReq (stripTags ("t".data)) (displayedResponse ("no tags here".data))]
      else [assistPrimaryReq ("t".data) ("fix the grammar".data) []] :=
  ⟨by decide, C1_fallback_gating _ _ _ _ _ (by decide)⟩

/-- Claim C2 (amended): when the primary response has the delimited form
`e ++ <suggested_text> ++ payload ++ </suggested_text>` (with `e` and
`payload` free of `<`), and the trimmed payload is non-empty or the prompt is
not a modification request, the assistant returns `suggestedText` equal to
the trimmed payload and `response` equal to the response with the delimited
span (including delimiters) removed and trimmed. -/
theorem C2_delimiter_extraction (cl : Client) (s p c e payload : Chars)
    (he : '<' ∉ e) (hp : '<' ∉ payload)
    (hok : cl.respond (assistPrimaryReq s p c)
      = CallResult.ok (e ++ openTagChars ++ payload ++ closeTagChars))
    (hside : pyStrip payload ≠ [] ∨ is_modification_request p = false) :
    (ai_assist_text (some cl) s p c).1
      = { response := pyStrip e, suggested_text := some (pyStrip payload) } := by
  have hsearch := searchSuggested_form e payload he hp
  have hsub := subSuggested_form e payload he hp
  set raw := e ++ openTagChars ++ payload ++ closeTagChars with hraw
  have hps : primarySuggested raw = some (pyStrip payload) := by
    rw [primarySuggested, hsearch]; rfl
  have hdr : displayedResponse raw = pyStrip e := by
    rw [displayedResponse, hsearch, hsub]
  have hcond : ¬ (pyFalsyOpt (some (pyStrip payload)) = true
      ∧ is_modification_request p = true) := by
    rcases hside with h | h
    · cases hps2 : pyStrip payload with
      | nil => exact absurd hps2 h
      | cons x xs => simp [pyFalsyOpt]
    · rintro ⟨_, hmm⟩
      rw [h] at hmm
      exact Bool.false_ne_true hmm
  simp only [ai_assist_text]
  rw [hok]
  simp [hps, hdr, hcond]

/-- Counterexample to claim C2 as stated: a delimited-form response whose
payload trims to the empty string, under the modification prompt "fix",
returns the fallback's text instead of the trimmed payload. -/
theorem C2_delimiter_extraction_cex :
    (ai_assist_text (some (Client.mk (fun r =>
        if r.max_tokens = 1024
        then CallResult.ok ("Made it formal. <suggested_text> </suggested_text>".data)
        else CallResult.ok ("GOOD TEXT".data))))
      ("t".data) ("fix".data) []).1.suggested_text
      ≠ some (pyStrip (" ".data)) := by decide

/-- Witness for C2 at the spec's own end-to-end example. -/
theorem C2_delimiter_extraction_witness :
    pyStrip ("The application exhibits high performance.".data) ≠ [] ∧
    (ai_assist_text (some (Client.mk (fun _ => CallResult.ok
        ("Made it more formal. ".data ++ openTagChars
          ++ "The application exhibits high performance.".data ++ closeTagChars))))
      ("The app is fast".data) ("make this more formal".data) []).1
      = { response := pyStrip ("Made it more formal. ".data),
          suggested_text := some (pyStrip ("The application exhibits high performance.".data)) } :=
  ⟨by decide, C2_delimiter_extraction _ _ _ _ _ _ (by decide) (by decide) (by decide)
    (Or.inl (by decide))⟩


/-- Claim C3: when the external call inside `generate_twin_content` succeeds
with text `t`, the function returns `t`, upserts the document's stored twin
to `t`, and an immediately following `get_twin_content` returns exactly the
returned string. -/
theorem C3_twin_persistence (cl : Client) (d : Doc) (st : Option Chars) (t : Chars)
    (hok : cl.respond (twinReq d) = CallResult.ok t) :
    (generate_twin_content (some cl) d st).1 = t ∧
    (generate_twin_content (some cl) d st).2.1 = some t ∧
    get_twin_content (generate_twin_content (some cl) d st).2.1
      = some ((generate_twin_content (some cl) d st).1) := by
  simp [generate_twin_content, get_twin_content, hok]

/-- Witness for C3 at a concrete document and client. -/
theorem C3_twin_persistence_witness :
    (Client.mk (fun _ => CallResult.ok ("## Twin".data))).respond
        (twinReq ⟨"T".data, "c".data⟩) = CallResult.ok ("## Twin".data) ∧
    ((generate_twin_content (some (Client.mk (fun _ => CallResult.ok ("## Twin".data))))
        ⟨"T".data, "c".data⟩ none).1 = "## Twin".data ∧
      (generate_twin_content (some (Client.mk (fun _ => CallResult.ok ("## Twin".data))))
        ⟨"T".data, "c".data⟩ none).2.1 = some ("## Twin".data) ∧
      get_twin_content (generate_twin_content (some (Client.mk (fun _ => CallResult.ok ("## Twin".data))))
        ⟨"T".data, "c".data⟩ none).2.1
        = some ((generate_twin_content (some (Client.mk (fun _ => CallResult.ok ("## Twin".data))))
            ⟨"T".data, "c".data⟩ none).1)) :=
  ⟨by decide, C3_twin_persistence _ _ _ _ (by decide)⟩

/-- Claim C4: when the external call inside `generate_twin_content` raises
`e`, the function returns the markdown error block embedding `e`, and the
stored twin is left unchanged, so `get_twin_content` afterwards returns what
it returned before. -/
theorem C4_twin_failure_no_overwrite (cl : Client) (d : Doc) (st : Option Chars)
    (e : Chars) (herr : cl.respond (twinReq d) = CallResult.err e) :
    (generate_twin_content (some cl) d st).1 = twinErrorMsg e ∧
    (∃ a b : Chars, (generate_twin_content (some cl) d st).1 = a ++ e ++ b) ∧
    (generate_twin_content (some cl) d st).2.1 = st ∧
    get_twin_content (generate_twin_content (some cl) d st).2.1 = get_twin_content st := by
  refine ⟨?_, ?_, ?_, ?_⟩
  · simp [generate_twin_content, herr]
  · refine ⟨"## ⚠️ AI Generation Error\n\nFailed to generate AI Twin:\n\n```\n".data,
      "\n```\n\nPlease check your API key and try again.".data, ?_⟩
    simp [generate_twin_content, herr, twinErrorMsg]
  · simp [generate_twin_content, herr]
  · simp [generate_twin_content, herr]

/-- Witness for C4: a failing call on a document with a previously stored
twin leaves the stored twin intact. -/
theorem C4_twin_failure_no_overwrite_witness :
    (Client.mk (fun _ => CallResult.err ("quota".data))).respond
        (twinReq ⟨"T".data, "c".data⟩) = CallResult.err ("quota".data) ∧
    ((generate_twin_content (some (Client.mk (fun _ => CallResult.err ("quota".data))))
        ⟨"T".data, "c".data⟩ (some ("old twin".data))).1 = twinErrorMsg ("quota".data) ∧
      (∃ a b : Chars, (generate_twin_content (some (Client.mk (fun _ => CallResult.err ("quota".data))))
        ⟨"T".data, "c".data⟩ (some ("old twin".data))).1 = a ++ "quota".data ++ b) ∧
      (generate_twin_content (some (Client.mk (fun _ => CallResult.err ("quota".data))))
        ⟨"T".data, "c".data⟩ (some ("old twin".data))).2.1 = some ("old twin".data) ∧
      get_twin_content (generate_twin_content (some (Client.mk (fun _ => CallResult.err ("quota".data))))
        ⟨"T".data, "c".data⟩ (some ("old twin".data))).2.1
        = get_twin_content (some ("old twin".data))) :=
  ⟨by decide, C4_twin_failure_no_overwrite _ _ _ _ (by decide)⟩

/-- Claim C5 (amended): when the fallback extraction call returns `t`, the
assistant accepts the trimmed text as `suggestedText` iff it is non-empty,
differs from the sentinel `NO_REPLACEMENT`, and has length above 3; on
rejection `suggestedText` keeps its primary-extraction value — `none` when no
delimited span was found, `some ""` when a span with empty-trimming payload
was found. -/
theorem C5_fallback_sentinel_rejection (cl : Client) (s p c raw t : Chars)
    (hok : cl.respond (assistPrimaryReq s p c) = CallResult.ok raw)
    (hfals : pyFalsyOpt (primarySuggested raw) = true)
    (hmod : is_modification_request p = true)
    (hfb : cl.respond (assistExtractionReq (stripTags s) (displayedResponse raw))
      = CallResult.ok t) :
    ((pyStrip t = [] ∨ pyStrip t = "NO_REPLACEMENT".data ∨ (pyStrip t).length ≤ 3) →
      (ai_assist_text (some cl) s p c).1.suggested_text = primarySuggested raw) ∧
    ((pyStrip t ≠ [] ∧ pyStrip t ≠ "NO_REPLACEMENT".data ∧ (pyStrip t).length > 3) →
      (ai_assist_text (some cl) s p c).1.suggested_text = some (pyStrip t)) := by
  have hres : (ai_assist_text (some cl) s p c).1.suggested_text =
      if pyStrip t ≠ [] ∧ pyStrip t ≠ "NO_REPLACEMENT".data ∧ (pyStrip t).length > 3
      then some (pyStrip t) else primarySuggested raw := by
    simp only [ai_assist_text]
    rw [hok]
    simp [hfals, hmod, hfb]
  constructor
  · intro hrej
    have hneg : ¬ (pyStrip t ≠ [] ∧ pyStrip t ≠ "NO_REPLACEMENT".data
        ∧ (pyStrip t).length > 3) := by
      rcases hrej with h | h | h
      · exact fun hc => hc.1 h
      · exact fun hc => hc.2.1 h
      · exact fun hc => absurd hc.2.2 (by omega)
    rw [hres, if_neg hneg]
  · intro hacc
    rw [hres, if_pos hacc]

/-- Counterexample to claim C5 as stated: when the primary response contains
a span whose payload trims to empty and the fallback returns the sentinel,
`suggestedText` is the empty string, not null. -/
theorem C5_fallback_sentinel_rejection_cex :
    (ai_assist_text (some (Client.mk (fun r =>
        if r.max_tokens = 1024
        then CallResult.ok ("ok <suggested_text> </suggested_text>".data)
        else CallResult.ok ("NO_REPLACEMENT".data))))
      ("t".data) ("fix".data) []).1.suggested_text ≠ none := by decide

/-- Witness for C5: sentinel fallback response after a span-free primary
response leaves `suggestedText` at its primary value. -/
theorem C5_fallback_sentinel_rejection_witness :
    (ai_assist_text (some (Client.mk (fun r =>
        if r.max_tokens = 1024
        then CallResult.ok ("no tags here".data)
        else CallResult.ok ("NO_REPLACEMENT".data))))
      ("t".data) ("fix".data) []).1.suggested_text
      = primarySuggested ("no tags here".data) :=
  (C5_fallback_sentinel_rejection (Client.mk (fun r =>
        if r.max_tokens = 1024
        then CallResult.ok ("no tags here".data)
        else CallResult.ok ("NO_REPLACEMENT".data)))
      ("t".data) ("fix".data) [] ("no tags here".data) ("NO_REPLACEMENT".data)
      (by decide) (by decide) (by decide) (by decide)).1
    (Or.inr (Or.inl (by decide)))

/-- Claim C6: with no credential configured (`client = none`), the twin
generator returns the fixed warning block and persists nothing, the
assistant returns the fixed diagnostic with a null suggestion, and neither
operation issues any external request. -/
theorem C6_config_missing (d : Doc) (st : Option Chars) (s p c : Chars) :
    generate_twin_content none d st = (twinConfigWarning, st, []) ∧
    ai_assist_text none s p c
      = ({ response := assistConfigResponse, suggested_text := none }, []) :=
  ⟨rfl, rfl⟩

/-- Claim C7: the assistant always produces a well-formed
`{response, suggested_text}` result, and any exception from either external
call is caught and surfaced as `Error: <detail>` with a null suggestion. -/
theorem C7_totality_on_failure (cl : Client) (s p c e : Chars) :
    (∃ res trace, ai_assist_text (some cl) s p c = (res, trace)) ∧
    (cl.respond (assistPrimaryReq s p c) = CallResult.err e →
      ai_assist_text (some cl) s p c
        = ({ response := "Error: ".data ++ e, suggested_text := none },
            [assistPrimaryReq s p c])) ∧
    (∀ raw, cl.respond (assistPrimaryReq s p c) = CallResult.ok raw →
      pyFalsyOpt (primarySuggested raw) = true →
      is_modification_request p = true →
      cl.respond (assistExtractionReq (stripTags s) (displayedResponse raw))
        = CallResult.err e →
      (ai_assist_text (some cl) s p c).1
        = { response := "Error: ".data ++ e, suggested_text := none }) := by
  refine ⟨⟨(ai_assist_text (some cl) s p c).1, (ai_assist_text (some cl) s p c).2, rfl⟩,
    ?_, ?_⟩
  · intro herr
    simp [ai_assist_text, herr]
  · intro raw hok hfals hmod herr
    simp only [ai_assist_text]
    rw [hok]
    simp [hfals, hmod, herr]

/-- Witness for C7 at a client whose calls always raise. -/
theorem C7_totality_on_failure_witness :
    (Client.mk (fun _ => CallResult.err ("network down".data))).respond
        (assistPrimaryReq ("t".data) ("what?".data) [])
      = CallResult.err ("network down".data) ∧
    ai_assist_text (some (Client.mk (fun _ => CallResult.err ("network down".data))))
        ("t".data) ("what?".data) []
      = ({ response := "Error: ".data ++ "network down".data, suggested_text := none },
          [assistPrimaryReq ("t".data) ("what?".data) []]) :=
  ⟨by decide, (C7_totality_on_failure _ _ _ _ _).2.1 (by decide)⟩

/-- Claim C8: the prompt is classified as a modification request iff its
lowercasing contains one of the fixed keywords as a substring, and the
classification leaves the primary call's system prompt (a fixed constant)
and user message (a function of the sanitized inputs only) untouched. -/
theorem C8_keyword_classification (s p c : Chars) :
    (is_modification_request p = true ↔
      ∃ kw ∈ modification_keywords, ∃ a b, lowerChars p = a ++ kw ++ b) ∧
    (assistPrimaryReq s p c).system = some systemPromptChars ∧
    (assistPrimaryReq s p c).content
      = mkUserMessage (stripTags s) (if c = [] then [] else stripTags c) p := by
  refine ⟨?_, rfl, rfl⟩
  rw [is_modification_request, List.any_eq_true]
  constructor
  · rintro ⟨kw, hkw, hc⟩
    exact ⟨kw, hkw, (containsSub_iff kw (lowerChars p)).1 hc⟩
  · rintro ⟨kw, hkw, hab⟩
    exact ⟨kw, hkw, (containsSub_iff kw (lowerChars p)).2 hab⟩

/-- Claim C10: a delimited span whose payload trims to the empty string is
treated as "no suggestion" by the fallback gate — for a modification prompt
the fallback call is issued even though a span was present, while for a
non-modification prompt `suggestedText` is the empty string, not null. -/
theorem C10_empty_payload_span (cl : Client) (s p c raw payload : Chars)
    (hok : cl.respond (assistPrimaryReq s p c) = CallResult.ok raw)
    (hspan : searchSuggested raw = some payload)
    (hempty : pyStrip payload = []) :
    (is_modification_request p = true →
      (ai_assist_text (some cl) s p c).2
        = [assistPrimaryReq s p c,
           assistExtractionReq (stripTags s) (displayedResponse raw)]) ∧
    (is_modification_request p = false →
      (ai_assist_text (some cl) s p c).1.suggested_text = some []) := by
  have hps : primarySuggested raw = some [] := by
    rw [primarySuggested, hspan]
    simp [hempty]
  have hfals : pyFalsyOpt (primarySuggested raw) = true := by
    rw [hps]; rfl
  constructor
  · intro hmod
    simp only [ai_assist_text]
    rw [hok]
    cases hresp : cl.respond (assistExtractionReq (stripTags s) (displayedResponse raw)) <;>
      simp [hfals, hmod, hresp]
  · intro hmod
    simp only [ai_assist_text]
    rw [hok]
    simp [hmod, hps]

/-- Witness for C10: under a non-modification prompt the empty-trimming span
yields the empty-string suggestion. -/
theorem C10_empty_payload_span_witness :
    (ai_assist_text (some (Client.mk (fun _ =>
        CallResult.ok ("ok <suggested_text> </suggested_text>".data))))
      ("t".data) ("what does this mean?".data) []).1.suggested_text = some [] :=
  (C10_empty_payload_span (Client.mk (fun _ =>
        CallResult.ok ("ok <suggested_text> </suggested_text>".data)))
      ("t".data) ("what does this mean?".data) []
      ("ok <suggested_text> </suggested_text>".data) (" ".data)
      (by decide) (by decide) (by decide)).2 (by decide)

end Pineback
